import Mathlib

/-!
Verification of the client-side cart ledger and auth-session slice of the
El Xolito Mex storefront (src/landing-page/main.js and
src/landing-page/services/authService.js).

The JavaScript is shallowly embedded: JS numbers become rationals (all the
arithmetic the cart performs — sums and products of currency amounts and
quantities — is exact on the values that occur), the browser `localStorage`
key `cart` becomes an explicit storage cell, and the two observable side
effects of a mutation (`saveToStorage`, `updateCartUI`) are tracked in the
state as the stored serialized list, a render counter, and the snapshot of
the line list that the last render projected.
-/

set_option autoImplicit false

/-- A JSON value, the result of `JSON.parse`.  Numbers are modelled as
rationals (JS `JSON.stringify`/`JSON.parse` round-trips numbers exactly). -/
inductive Json where
  | null
  | bool (b : Bool)
  | num (q : ℚ)
  | str (s : String)
  | arr (elems : List Json)
  | obj (fields : List (String × Json))

/-- The possible contents of the persisted `cart` key in `localStorage`:
the key may be absent (`getItem` returns `null`), hold a string that
`JSON.parse` rejects, or hold a string whose parse is a JSON value. -/
inductive StorageVal where
  | absent
  | invalid
  | json (j : Json)

/-- The slice of a catalog product record that the cart snapshots when a
line is created (`{...product, quantity}` copies every field; the fields
not listed here ride along identically and are irrelevant to the claims). -/
structure Product where
  id : String
  name : String
  price : ℚ
  image : String
  deriving Repr, DecidableEq

/-- A cart line: the denormalized product snapshot plus a quantity.
Quantities are JS numbers, hence rationals here. -/
structure CartLine where
  id : String
  name : String
  price : ℚ
  image : String
  quantity : ℚ
  deriving Repr, DecidableEq

/-- Serialization of one cart line, the shape `JSON.stringify` produces for
a line object. -/
def encodeLine (l : CartLine) : Json :=
  Json.obj [("id", Json.str l.id), ("name", Json.str l.name),
            ("price", Json.num l.price), ("image", Json.str l.image),
            ("quantity", Json.num l.quantity)]

/-- Reading a parsed line object back as a typed cart line; `none` when the
shape does not match.  This is the typed view of the untyped object
`JSON.parse` yields. -/
def decodeLine : Json → Option CartLine
  | Json.obj [("id", Json.str i), ("name", Json.str n), ("price", Json.num p),
              ("image", Json.str im), ("quantity", Json.num q)] =>
      some { id := i, name := n, price := p, image := im, quantity := q }
  | _ => none

/-- Serialization of the whole line list (`JSON.stringify(this.items)`). -/
def encodeCart (ls : List CartLine) : Json :=
  Json.arr (ls.map encodeLine)

/-- Typed reading of a parsed array of line objects. -/
def decodeLines : List Json → Option (List CartLine)
  | [] => some []
  | j :: rest =>
    match decodeLine j, decodeLines rest with
    | some l, some ls => some (l :: ls)
    | _, _ => none

/-- Typed reading of a whole parsed cart value; `none` when the value is
not an array of line objects. -/
def decodeCart : Json → Option (List CartLine)
  | Json.arr js => decodeLines js
  | _ => none

/-- The raw result of `Cart.loadFromStorage` (main.js lines 107-113):
`JSON.parse(localStorage.getItem('cart') || '[]')` inside `try`, with the
`catch` returning `[]`.  An absent key parses the fallback `'[]'`; an
invalid string makes `JSON.parse` throw, caught to `[]`; otherwise the
parse result is returned unvalidated. -/
def loadFromStorage : StorageVal → Json
  | StorageVal.absent => Json.arr []
  | StorageVal.invalid => Json.arr []
  | StorageVal.json j => j

/-- Reconstructing the typed line list after a reload: parse the stored
string and read the parsed value as lines. -/
def reloadItems (sv : StorageVal) : Option (List CartLine) :=
  decodeCart (loadFromStorage sv)

/-- The observable state of the cart subsystem: the in-memory line list,
the contents of the persisted `cart` storage key, and the instrumented
side-effect trace of `updateCartUI` (how many times it ran and which line
list the last run projected) and of `console.warn` in `addItem`. -/
structure CartState where
  items : List CartLine
  stored : StorageVal
  renders : Nat
  rendered : List CartLine
  warnings : Nat

/-- `Cart.saveToStorage` (main.js lines 115-117):
`localStorage.setItem('cart', JSON.stringify(this.items))`. -/
def saveToStorage (s : CartState) : CartState :=
  { s with stored := StorageVal.json (encodeCart s.items) }

/-- `Cart.updateCartUI` (main.js lines 171-231) re-projects the current
line list onto the DOM; modelled as bumping the render counter and
recording the projected snapshot. -/
def updateCartUI (s : CartState) : CartState :=
  { s with renders := s.renders + 1, rendered := s.items }

/-- The standalone `getProductById` helper (main.js lines 78-98): return
the cached product if `PRODUCTS` holds the id, else fall back to the
remote catalog lookup.  `remote` maps an id to the formatted product of a
successful lookup; `none` covers not-found, a failed response and a thrown
network error alike (the helper catches and returns `null` for all of
them). -/
def getProductById (catalog : List Product) (remote : String → Option Product)
    (id : String) : Option Product :=
  match catalog.find? (fun p => p.id == id) with
  | some p => some p
  | none => remote id

/-- The product-resolution prefix of `Cart.addItem` (main.js lines
120-126): probe the `PRODUCTS` cache, then fall back to `getProductById`. -/
def resolveProduct (catalog : List Product) (remote : String → Option Product)
    (productId : String) : Option Product :=
  match catalog.find? (fun p => p.id == productId) with
  | some p => some p
  | none => getProductById catalog remote productId

/-- The new line `addItem` pushes: `{ ...product, quantity }`. -/
def mkLine (p : Product) (quantity : ℚ) : CartLine :=
  { id := p.id, name := p.name, price := p.price, image := p.image,
    quantity := quantity }

/-- In-place `existingItem.quantity += quantity` on the first line
`Array.prototype.find` returns for the id. -/
def bumpFirst (productId : String) (quantity : ℚ) : List CartLine → List CartLine
  | [] => []
  | it :: rest =>
    if it.id == productId then { it with quantity := it.quantity + quantity } :: rest
    else it :: bumpFirst productId quantity rest

/-- In-place `item.quantity = quantity` on the first line `find` returns
for the id. -/
def setFirst (productId : String) (quantity : ℚ) : List CartLine → List CartLine
  | [] => []
  | it :: rest =>
    if it.id == productId then { it with quantity := quantity } :: rest
    else it :: setFirst productId quantity rest

/-- `Cart.addItem` (main.js lines 119-142): resolve the product; on
failure, `console.warn` and return without touching the items, the storage
or the UI; on success, increment the first existing line for the id or
push a new snapshot line, then `saveToStorage()` and `updateCartUI()`. -/
def addItem (catalog : List Product) (remote : String → Option Product)
    (s : CartState) (productId : String) (quantity : ℚ) : CartState :=
  match resolveProduct catalog remote productId with
  | none => { s with warnings := s.warnings + 1 }
  | some product =>
    match s.items.find? (fun it => it.id == productId) with
    | some _ =>
        updateCartUI (saveToStorage { s with items := bumpFirst productId quantity s.items })
    | none =>
        updateCartUI (saveToStorage { s with items := s.items ++ [mkLine product quantity] })

/-- `Cart.removeItem` (main.js lines 144-148): filter the id out
unconditionally, then `saveToStorage()` and `updateCartUI()`. -/
def removeItem (s : CartState) (productId : String) : CartState :=
  updateCartUI (saveToStorage { s with items := s.items.filter (fun it => !(it.id == productId)) })

/-- `Cart.updateQuantity` (main.js lines 150-161): only when a line for
the id exists — quantity ≤ 0 delegates to `removeItem`, otherwise the
found line's quantity is set (no upper bound is checked) and the state is
saved and re-rendered.  When no line matches, nothing at all happens. -/
def updateQuantity (s : CartState) (productId : String) (quantity : ℚ) : CartState :=
  match s.items.find? (fun it => it.id == productId) with
  | none => s
  | some _ =>
    if quantity ≤ 0 then removeItem s productId
    else updateCartUI (saveToStorage { s with items := setFirst productId quantity s.items })

/-- `Cart.getTotal` (main.js lines 163-165):
`this.items.reduce((total, item) => total + item.price * item.quantity, 0)`. -/
def getTotal (s : CartState) : ℚ :=
  s.items.foldl (fun total it => total + it.price * it.quantity) 0

/-- `Cart.getItemCount` (main.js lines 167-169):
`this.items.reduce((total, item) => total + item.quantity, 0)`. -/
def getItemCount (s : CartState) : ℚ :=
  s.items.foldl (fun total it => total + it.quantity) 0

/-- A cart as freshly constructed from empty storage. -/
def emptyCart : CartState :=
  { items := [], stored := StorageVal.absent, renders := 1, rendered := [], warnings := 0 }

/-- A remote catalog on which every lookup fails (server down or id
unknown everywhere). -/
def remoteNone : String → Option Product := fun _ => none

/-!
The auth-session client (src/landing-page/services/authService.js).

The local key-value store holds the three session keys.  The backend is a
parameter: `meServer` maps the `Authorization` bearer token attached to a
request (none when no `accessToken` is stored; stored tokens are nonempty
strings, so `token &&` in the JS agrees with `isSome`) to the response for
the requested endpoint, and `refreshSrv` maps a refresh token to the new
access token of a successful `POST /auth/refresh`, `none` covering an
unsuccessful response and a thrown network error alike (both make
`refreshToken()` return `false`).
-/

/-- The three persisted session keys. -/
structure Store where
  accessToken : Option String
  refreshToken : Option String
  currentUser : Option String
  deriving Repr, DecidableEq

/-- The parts of a parsed response body the client reads: `data.success`,
`data.data.user` (kept serialized, as it is stored), and `data.message`
with the client-side fallback text already applied. -/
structure ApiData where
  success : Bool
  user : Option String
  message : String
  deriving Repr, DecidableEq

/-- An HTTP response: its status code and parsed body. -/
structure Resp where
  status : Nat
  data : ApiData
  deriving Repr, DecidableEq

/-- `response.ok`: status in [200, 300). -/
def respOk (status : Nat) : Bool :=
  200 ≤ status && status < 300

/-- `refreshToken` (authService.js lines 142-169): without a stored
refresh token, `false`; otherwise POST it, and on `data.success` store the
new access token and return `true`, else return `false` with the store
untouched. -/
def refreshTokenOp (refreshSrv : String → Option String) (st : Store) : Bool × Store :=
  match st.refreshToken with
  | none => (false, st)
  | some rt =>
    match refreshSrv rt with
    | some newAccess => (true, { st with accessToken := some newAccess })
    | none => (false, st)

/-- What `apiRequest` produces for its caller: the parsed data of a
returned response, or a thrown `Error` with its message. -/
inductive ApiOutcome where
  | ok (d : ApiData)
  | thrown (msg : String)
  deriving Repr, DecidableEq

/-- The result of one `apiRequest` call plus its instrumented trace: the
resulting local store, how many times the requested endpoint was fetched,
and how many times `refreshToken()` was called. -/
structure ApiTrace where
  outcome : ApiOutcome
  store : Store
  endpointCalls : Nat
  refreshCalls : Nat
  deriving Repr, DecidableEq

/-- `apiRequest` (authService.js lines 5-40): attach the stored access
token; if the response is ok, return its data; on a 401 with a token
attached, call `refreshToken()` once — on success re-fetch the endpoint
once with the freshly stored token and return that response's data
whatever its status, on failure throw; any other failure status throws. -/
def apiRequest (meServer : Option String → Resp) (refreshSrv : String → Option String)
    (st : Store) : ApiTrace :=
  let r := meServer st.accessToken
  if respOk r.status then ⟨ApiOutcome.ok r.data, st, 1, 0⟩
  else if r.status == 401 && st.accessToken.isSome then
    let rr := refreshTokenOp refreshSrv st
    if rr.fst then ⟨ApiOutcome.ok (meServer rr.snd.accessToken).data, rr.snd, 2, 1⟩
    else ⟨ApiOutcome.thrown r.data.message, rr.snd, 1, 1⟩
  else ⟨ApiOutcome.thrown r.data.message, st, 1, 0⟩

/-- Removal of the three session keys. -/
def clearSession (st : Store) : Store :=
  { st with accessToken := none, refreshToken := none, currentUser := none }

/-- `logout` (authService.js lines 106-120): fire the server logout and,
in the `finally`, remove the three session keys.  The only local write the
server call can make (a refreshed access token) is removed again by the
`finally`, so the net local effect is clearing the keys. -/
def logout (st : Store) : Store :=
  clearSession st

/-- The result of `getCurrentUser` plus the trace of its `apiRequest`. -/
structure UserTrace where
  user : Option String
  store : Store
  endpointCalls : Nat
  refreshCalls : Nat
  deriving Repr, DecidableEq

/-- `getCurrentUser` (authService.js lines 123-139): request `/auth/me`;
on a returned body with `success`, store and return the user; on a
returned body without `success`, return `null`; when `apiRequest` throws,
call `logout()` and return `null`. -/
def getCurrentUser (meServer : Option String → Resp) (refreshSrv : String → Option String)
    (st : Store) : UserTrace :=
  match apiRequest meServer refreshSrv st with
  | ⟨ApiOutcome.ok d, store, e, r⟩ =>
    if d.success then ⟨d.user, { store with currentUser := d.user }, e, r⟩
    else ⟨none, store, e, r⟩
  | ⟨ApiOutcome.thrown _, store, e, r⟩ => ⟨none, logout store, e, r⟩

/-!
Concrete fixtures for the scenarios the spec names.
-/

/-- The product `A` of the C1 scenario, costing 100.00. -/
def prodA : Product := { id := "A", name := "Product A", price := 100, image := "a.jpg" }

/-- The product `B` of the C1 scenario, costing 50.00. -/
def prodB : Product := { id := "B", name := "Product B", price := 50, image := "b.jpg" }

/-- A catalog cache holding `A` and `B`. -/
def catalogAB : List Product := [prodA, prodB]

/-- Empty cart, then `addItem('A', 1)`, then `addItem('B', 2)`. -/
def scenarioAB : CartState :=
  addItem catalogAB remoteNone (addItem catalogAB remoteNone emptyCart "A" 1) "B" 2

/-- The product `sku-1` of the upsert scenario. -/
def skuProduct : Product := { id := "sku-1", name := "Sku One", price := 10, image := "s.jpg" }

/-- A catalog cache holding only `sku-1`. -/
def skuCatalog : List Product := [skuProduct]

/-- Empty cart, then `addItem('sku-1', 2)`, then `addItem('sku-1', 3)`. -/
def scenarioSku : CartState :=
  addItem skuCatalog remoteNone (addItem skuCatalog remoteNone emptyCart "sku-1" 2) "sku-1" 3

/-- A cart line for `sku-1` with quantity 2. -/
def skuLine : CartLine := mkLine skuProduct 2

/-- A cart currently holding one `sku-1` line. -/
def cartWithSku : CartState :=
  { items := [skuLine], stored := StorageVal.absent, renders := 1,
    rendered := [skuLine], warnings := 0 }

/-!
Helper lemmas about the list manipulations the cart performs.
-/

theorem foldl_add_eq_sum (f : CartLine → ℚ) (ls : List CartLine) : ∀ a : ℚ,
    ls.foldl (fun t it => t + f it) a = a + (ls.map f).sum := by
  induction ls with
  | nil => intro a; simp
  | cons it rest ih => intro a; simp [List.foldl_cons, ih, List.sum_cons]; ring

theorem bumpFirst_map_id (pid : String) (q : ℚ) (ls : List CartLine) :
    (bumpFirst pid q ls).map CartLine.id = ls.map CartLine.id := by
  induction ls with
  | nil => rfl
  | cons it rest ih =>
    by_cases h : (it.id == pid) = true
    · simp [bumpFirst, h]
    · simp [bumpFirst, h, ih]

theorem find?_bumpFirst (pid : String) (q : ℚ) (ls : List CartLine) :
    (bumpFirst pid q ls).find? (fun it => it.id == pid) =
      (ls.find? (fun it => it.id == pid)).map
        (fun l => { l with quantity := l.quantity + q }) := by
  induction ls with
  | nil => rfl
  | cons it rest ih =>
    by_cases h : (it.id == pid) = true
    · simp [bumpFirst, h, List.find?_cons]
    · simp [bumpFirst, h, List.find?_cons, ih]

theorem setFirst_map_id (pid : String) (q : ℚ) (ls : List CartLine) :
    (setFirst pid q ls).map CartLine.id = ls.map CartLine.id := by
  induction ls with
  | nil => rfl
  | cons it rest ih =>
    by_cases h : (it.id == pid) = true
    · simp [setFirst, h]
    · simp [setFirst, h, ih]

theorem find?_setFirst (pid : String) (q : ℚ) (ls : List CartLine) :
    (setFirst pid q ls).find? (fun it => it.id == pid) =
      (ls.find? (fun it => it.id == pid)).map (fun l => { l with quantity := q }) := by
  induction ls with
  | nil => rfl
  | cons it rest ih =>
    by_cases h : (it.id == pid) = true
    · simp [setFirst, h, List.find?_cons]
    · simp [setFirst, h, List.find?_cons, ih]

theorem filter_idem {α : Type} (p : α → Bool) (ls : List α) :
    (ls.filter p).filter p = ls.filter p := by
  induction ls with
  | nil => rfl
  | cons it rest ih =>
    by_cases h : p it = true
    · simp [List.filter_cons, h, ih]
    · simp [List.filter_cons, h, ih]

theorem any_filter_not (pid : String) (ls : List CartLine) :
    (ls.filter (fun it => !(it.id == pid))).any (fun it => it.id == pid) = false := by
  induction ls with
  | nil => rfl
  | cons it rest ih =>
    by_cases h : (it.id == pid) = true
    · simp [List.filter_cons, h, ih]
    · simp [List.filter_cons, h, ih]

theorem resolveProduct_id (catalog : List Product) (remote : String → Option Product)
    (pid : String) (p : Product)
    (hco : ∀ i pr, remote i = some pr → pr.id = i)
    (h : resolveProduct catalog remote pid = some p) : p.id = pid := by
  unfold resolveProduct getProductById at h
  cases hfind : catalog.find? (fun pr => pr.id == pid) with
  | some pr =>
    rw [hfind] at h
    cases h
    have := List.find?_some hfind
    exact eq_of_beq this
  | none =>
    rw [hfind] at h
    exact hco pid p h

theorem decodeLine_encodeLine (l : CartLine) : decodeLine (encodeLine l) = some l := rfl

theorem decodeCart_encodeCart (ls : List CartLine) : decodeCart (encodeCart ls) = some ls := by
  induction ls with
  | nil => rfl
  | cons l rest ih =>
    simp only [encodeCart, List.map_cons, decodeCart, decodeLines, decodeLine_encodeLine]
    simp only [encodeCart, decodeCart] at ih
    rw [ih]

/-!
The claims.
-/

/-- Claim C1: for every cart state — hence after every sequence of
`addItem`/`removeItem`/`updateQuantity`, whichever sequence produced the
state — `getItemCount()` is the sum of the quantities of the lines
currently present and `getTotal()` is the sum of snapshot price × quantity
over those lines; both are pure functions of the state (they read the line
list and produce a number, touching neither items, storage nor UI).  In
the concrete scenario `addItem('A',1)` then `addItem('B',2)` from the
empty cart, with A costing 100.00 and B costing 50.00, `getTotal()` is
200.00 and `getItemCount()` is 3. -/
theorem cart_total_and_count_spec (s : CartState) :
    getItemCount s = (s.items.map CartLine.quantity).sum ∧
    getTotal s = (s.items.map (fun it => it.price * it.quantity)).sum ∧
    getTotal scenarioAB = 200 ∧ getItemCount scenarioAB = 3 := by
  refine ⟨?_, ?_, ?_, ?_⟩
  · simpa [getItemCount] using foldl_add_eq_sum (fun it => it.quantity) s.items 0
  · simpa [getTotal] using foldl_add_eq_sum (fun it => it.price * it.quantity) s.items 0
  · simp [scenarioAB, getTotal, addItem, resolveProduct, getProductById, catalogAB,
          prodA, prodB, emptyCart, remoteNone, mkLine, saveToStorage, updateCartUI, bumpFirst]
    norm_num
  · simp [scenarioAB, getItemCount, addItem, resolveProduct, getProductById, catalogAB,
          prodA, prodB, emptyCart, remoteNone, mkLine, saveToStorage, updateCartUI, bumpFirst]
    norm_num

/-- Claim C3: persisting the cart (`saveToStorage`) and reloading from the
stored value reconstructs the identical line list — the same ids, the same
quantities (and the same snapshot fields), in the same order. -/
theorem cart_storage_roundtrip_spec (s : CartState) :
    reloadItems (saveToStorage s).stored = some s.items := by
  simp [reloadItems, saveToStorage, loadFromStorage, decodeCart_encodeCart]

/-- Claim C5: `removeItem` removes the line for the id unconditionally,
raises no error when it is absent (it is total and acts by filtering), and
is idempotent — a second call leaves the line list, the persisted storage
and the projected view exactly as the first call left them. -/
theorem removeItem_idempotent_spec (s : CartState) (x : String) :
    (removeItem (removeItem s x) x).items = (removeItem s x).items ∧
    (removeItem (removeItem s x) x).stored = (removeItem s x).stored ∧
    (removeItem (removeItem s x) x).rendered = (removeItem s x).rendered ∧
    ((removeItem s x).items.any (fun it => it.id == x)) = false := by
  simp [removeItem, saveToStorage, updateCartUI, filter_idem, any_filter_not]

/-- Claim C6: when product resolution fails for the id — not in the cache
and the remote lookup returns not-found or errors — `addItem` leaves the
line list, the storage and the UI untouched, logs one warning, and returns
normally (no fault reaches the caller: the operation is total). -/
theorem addItem_unresolved_noop_spec (catalog : List Product)
    (remote : String → Option Product) (s : CartState) (pid : String) (q : ℚ)
    (hfail : resolveProduct catalog remote pid = none) :
    (addItem catalog remote s pid q).items = s.items ∧
    (addItem catalog remote s pid q).stored = s.stored ∧
    (addItem catalog remote s pid q).renders = s.renders ∧
    (addItem catalog remote s pid q).rendered = s.rendered ∧
    (addItem catalog remote s pid q).warnings = s.warnings + 1 := by
  simp [addItem, hfail]

/-- Claim C6 witness: `addItem('ghost', 1)` against a catalog that knows
only `sku-1` and a dead remote leaves the cart unchanged and logs one
warning. -/
theorem addItem_unresolved_noop_spec_witness :
    (addItem skuCatalog remoteNone cartWithSku "ghost" 1).items = cartWithSku.items ∧
    (addItem skuCatalog remoteNone cartWithSku "ghost" 1).stored = cartWithSku.stored ∧
    (addItem skuCatalog remoteNone cartWithSku "ghost" 1).renders = cartWithSku.renders ∧
    (addItem skuCatalog remoteNone cartWithSku "ghost" 1).rendered = cartWithSku.rendered ∧
    (addItem skuCatalog remoteNone cartWithSku "ghost" 1).warnings = cartWithSku.warnings + 1 :=
  addItem_unresolved_noop_spec skuCatalog remoteNone cartWithSku "ghost" 1
    (by simp [resolveProduct, getProductById, skuCatalog, skuProduct, remoteNone])

/-- Claim C10: `updateQuantity` on an id with no line in the cart is a
complete no-op whatever the quantity: the returned state is the input
state, so nothing is written to storage, no re-projection fires, and no
error is raised. -/
theorem updateQuantity_absent_noop_spec (s : CartState) (pid : String) (q : ℚ)
    (habs : s.items.find? (fun it => it.id == pid) = none) :
    updateQuantity s pid q = s := by
  simp [updateQuantity, habs]

/-- Claim C10 witness: updating the quantity of an id the cart does not
hold changes nothing, here with a negative quantity as well. -/
theorem updateQuantity_absent_noop_spec_witness :
    updateQuantity cartWithSku "ghost" 7 = cartWithSku ∧
    updateQuantity cartWithSku "ghost" (-2) = cartWithSku :=
  ⟨updateQuantity_absent_noop_spec cartWithSku "ghost" 7
      (by simp [cartWithSku, skuLine, mkLine, skuProduct]),
   updateQuantity_absent_noop_spec cartWithSku "ghost" (-2)
      (by simp [cartWithSku, skuLine, mkLine, skuProduct])⟩

/-- Claim C4: when the cart holds a line for the id, `updateQuantity` with
a quantity ≤ 0 removes the line entirely, and with a quantity > 0 it sets
that line's quantity to exactly the given value, leaving the line's
snapshot fields intact — with no condition on how large the quantity is,
so the ledger accepts any value above the UI's soft cap of 10. -/
theorem updateQuantity_boundary_spec (s : CartState) (pid : String) (q : ℚ)
    (hpres : (s.items.find? (fun it => it.id == pid)).isSome = true) :
    (q ≤ 0 → ((updateQuantity s pid q).items.any (fun it => it.id == pid)) = false) ∧
    (0 < q → (updateQuantity s pid q).items.find? (fun it => it.id == pid) =
      (s.items.find? (fun it => it.id == pid)).map (fun l => { l with quantity := q })) := by
  obtain ⟨l, hl⟩ := Option.isSome_iff_exists.mp hpres
  constructor
  · intro hq
    simp [updateQuantity, hl, hq, removeItem, saveToStorage, updateCartUI, any_filter_not]
  · intro hq
    have hq' : ¬ q ≤ 0 := not_le.mpr hq
    simp [updateQuantity, hl, hq', saveToStorage, updateCartUI, find?_setFirst]

/-- Claim C4 witness: on a cart holding `sku-1`, `updateQuantity('sku-1', 0)`
and `updateQuantity('sku-1', -5)` both remove the line, and
`updateQuantity('sku-1', 12)` sets quantity 12 with no cap. -/
theorem updateQuantity_boundary_spec_witness :
    ((updateQuantity cartWithSku "sku-1" 0).items.any (fun it => it.id == "sku-1")) = false ∧
    ((updateQuantity cartWithSku "sku-1" (-5)).items.any (fun it => it.id == "sku-1")) = false ∧
    (updateQuantity cartWithSku "sku-1" 12).items.find? (fun it => it.id == "sku-1") =
      some { skuLine with quantity := 12 } := by
  have hp : (cartWithSku.items.find? (fun it => it.id == "sku-1")).isSome = true := by
    simp [cartWithSku, skuLine, mkLine, skuProduct]
  have h0 := updateQuantity_boundary_spec cartWithSku "sku-1" 0 hp
  have h5 := updateQuantity_boundary_spec cartWithSku "sku-1" (-5) hp
  have h12 := updateQuantity_boundary_spec cartWithSku "sku-1" 12 hp
  refine ⟨h0.1 le_rfl, h5.1 (by norm_num), ?_⟩
  rw [h12.2 (by norm_num)]
  simp [cartWithSku, skuLine, mkLine, skuProduct]

/-- Claim C2: starting from a cart whose lines have pairwise distinct ids,
`addItem` keeps the ids pairwise distinct (assuming the remote catalog
answers a lookup for an id with a product carrying that id, as
`GET /products/{id}` does); when a line for the id is already present and
resolution succeeds, the id sequence of the cart is unchanged — no line is
appended — and the existing line's quantity is incremented by the given
amount with the rest of the line intact.  Concretely, `addItem('sku-1',2)`
then `addItem('sku-1',3)` from the empty cart yields exactly one line for
`sku-1`, with quantity 5. -/
theorem addItem_upsert_unique_spec (catalog : List Product)
    (remote : String → Option Product) (s : CartState) (pid : String) (q : ℚ)
    (p : Product)
    (hnd : (s.items.map CartLine.id).Nodup)
    (hco : ∀ i pr, remote i = some pr → pr.id = i)
    (hres : resolveProduct catalog remote pid = some p) :
    ((addItem catalog remote s pid q).items.map CartLine.id).Nodup ∧
    ((s.items.find? (fun it => it.id == pid)).isSome = true →
      (addItem catalog remote s pid q).items.map CartLine.id = s.items.map CartLine.id ∧
      (addItem catalog remote s pid q).items.find? (fun it => it.id == pid) =
        (s.items.find? (fun it => it.id == pid)).map
          (fun l => { l with quantity := l.quantity + q })) ∧
    (scenarioSku.items.countP (fun it => it.id == "sku-1") = 1 ∧
     (scenarioSku.items.find? (fun it => it.id == "sku-1")).map CartLine.quantity = some 5) := by
  have hscen1 : scenarioSku.items.countP (fun it => it.id == "sku-1") = 1 := by
    simp [scenarioSku, addItem, resolveProduct, getProductById, skuCatalog, skuProduct,
          emptyCart, remoteNone, mkLine, saveToStorage, updateCartUI, bumpFirst]
  have hscen2 : (scenarioSku.items.find? (fun it => it.id == "sku-1")).map CartLine.quantity
      = some 5 := by
    simp [scenarioSku, addItem, resolveProduct, getProductById, skuCatalog, skuProduct,
          emptyCart, remoteNone, mkLine, saveToStorage, updateCartUI, bumpFirst]
    norm_num
  cases hfind : s.items.find? (fun it => it.id == pid) with
  | some l =>
    refine ⟨?_, ?_, hscen1, hscen2⟩
    · simp [addItem, hres, hfind, saveToStorage, updateCartUI, bumpFirst_map_id, hnd]
    · intro _
      constructor
      · simp [addItem, hres, hfind, saveToStorage, updateCartUI, bumpFirst_map_id]
      · simp [addItem, hres, hfind, saveToStorage, updateCartUI]
        rw [find?_bumpFirst]
        simp [hfind]
  | none =>
    refine ⟨?_, ?_, hscen1, hscen2⟩
    · have hid : p.id = pid := resolveProduct_id catalog remote pid p hco hres
      have hnotmem : pid ∉ s.items.map CartLine.id := by
        intro hmem
        obtain ⟨it, hit, hiteq⟩ := List.mem_map.mp hmem
        have := List.find?_eq_none.mp hfind it hit
        simp [hiteq] at this
      simp only [addItem, hres, hfind, saveToStorage, updateCartUI, List.map_append]
      refine List.Nodup.append hnd (List.nodup_singleton _) ?_
      simp [mkLine, hid, List.disjoint_singleton]
      exact fun it hit hieq => absurd (hieq ▸ List.mem_map_of_mem CartLine.id hit) hnotmem
    · intro hpres
      simp at hpres

/-- Claim C2 witness: adding 3 more of `sku-1` to a cart already holding a
`sku-1` line with quantity 2 keeps the ids duplicate-free and unchanged
and bumps the line to quantity 5. -/
theorem addItem_upsert_unique_spec_witness :
    ((addItem skuCatalog remoteNone cartWithSku "sku-1" 3).items.map CartLine.id).Nodup ∧
    (addItem skuCatalog remoteNone cartWithSku "sku-1" 3).items.map CartLine.id =
      cartWithSku.items.map CartLine.id ∧
    (addItem skuCatalog remoteNone cartWithSku "sku-1" 3).items.find?
        (fun it => it.id == "sku-1") = some { skuLine with quantity := skuLine.quantity + 3 } := by
  have h := addItem_upsert_unique_spec skuCatalog remoteNone cartWithSku "sku-1" 3 skuProduct
    (by simp [cartWithSku, skuLine, mkLine, skuProduct])
    (by intro i pr hpr; simp [remoteNone] at hpr)
    (by simp [resolveProduct, getProductById, skuCatalog, skuProduct])
  have h2 := h.2.1 (by simp [cartWithSku, skuLine, mkLine, skuProduct])
  refine ⟨h.1, h2.1, ?_⟩
  rw [h2.2]
  simp [cartWithSku, skuLine, mkLine, skuProduct]

/-- The two side effects every completed mutation must exhibit: the
storage holds the serialized new line list, the render counter advanced by
exactly one (one re-projection, not zero, not two), and what was rendered
is the new line list (no stale render). -/
def persistsAndRendersOnce (before after : CartState) : Prop :=
  after.stored = StorageVal.json (encodeCart after.items) ∧
  after.renders = before.renders + 1 ∧
  after.rendered = after.items

/-- Claim C7: `removeItem` always, `addItem` whenever resolution succeeds
— on both of its mutating branches, incrementing an existing line or
pushing a new one — and `updateQuantity` whenever a line for the id
exists, each persist the full new line list to storage and trigger
exactly one UI re-projection before returning, and that re-projection
shows the new state.  The no-op paths — failed resolution, absent id —
mutate nothing and are covered by C6 and C10. -/
theorem mutators_persist_and_render_spec (catalog : List Product)
    (remote : String → Option Product) (s : CartState) (pid : String) (q : ℚ)
    (p : Product)
    (hres : resolveProduct catalog remote pid = some p) :
    persistsAndRendersOnce s (removeItem s pid) ∧
    persistsAndRendersOnce s (addItem catalog remote s pid q) ∧
    ((s.items.find? (fun it => it.id == pid)).isSome = true →
      persistsAndRendersOnce s (updateQuantity s pid q)) := by
  refine ⟨?_, ?_, ?_⟩
  · simp [persistsAndRendersOnce, removeItem, saveToStorage, updateCartUI]
  · cases hfind : s.items.find? (fun it => it.id == pid) with
    | some l => simp [persistsAndRendersOnce, addItem, hres, hfind, saveToStorage, updateCartUI]
    | none => simp [persistsAndRendersOnce, addItem, hres, hfind, saveToStorage, updateCartUI]
  · intro hpres
    obtain ⟨l, hl⟩ := Option.isSome_iff_exists.mp hpres
    by_cases hq : q ≤ 0
    · simp [persistsAndRendersOnce, updateQuantity, hl, hq, removeItem, saveToStorage,
            updateCartUI]
    · simp [persistsAndRendersOnce, updateQuantity, hl, hq, saveToStorage, updateCartUI]

/-- Claim C7 witness: on a cart holding `sku-1`, removing it, adding more
of it (the increment branch) and updating its quantity each persist and
render exactly once, and on the empty cart adding `sku-1` (the push
branch) does too. -/
theorem mutators_persist_and_render_spec_witness :
    persistsAndRendersOnce cartWithSku (removeItem cartWithSku "sku-1") ∧
    persistsAndRendersOnce cartWithSku (addItem skuCatalog remoteNone cartWithSku "sku-1" 3) ∧
    persistsAndRendersOnce cartWithSku (updateQuantity cartWithSku "sku-1" 3) ∧
    persistsAndRendersOnce emptyCart (addItem skuCatalog remoteNone emptyCart "sku-1" 2) := by
  have h1 := mutators_persist_and_render_spec skuCatalog remoteNone cartWithSku "sku-1" 3
    skuProduct (by simp [resolveProduct, getProductById, skuCatalog, skuProduct])
  have h2 := mutators_persist_and_render_spec skuCatalog remoteNone emptyCart "sku-1" 2
    skuProduct (by simp [resolveProduct, getProductById, skuCatalog, skuProduct])
  exact ⟨h1.1, h1.2.1, h1.2.2 (by simp [cartWithSku, skuLine, mkLine, skuProduct]), h2.2.1⟩

theorem refreshTokenOp_snd_of_fail (refreshSrv : String → Option String) (st : Store)
    (h : (refreshTokenOp refreshSrv st).fst = false) :
    (refreshTokenOp refreshSrv st).snd = st := by
  unfold refreshTokenOp at *
  cases hrt : st.refreshToken with
  | none => simp
  | some rt =>
    cases hr : refreshSrv rt with
    | none => simp [hr]
    | some na => rw [hrt] at h; simp [hr] at h

theorem getCurrentUser_refreshCalls (meServer : Option String → Resp)
    (refreshSrv : String → Option String) (st : Store) :
    (getCurrentUser meServer refreshSrv st).refreshCalls =
      (apiRequest meServer refreshSrv st).refreshCalls := by
  rcases happ : apiRequest meServer refreshSrv st with ⟨o, store, e, r⟩
  cases o with
  | ok d =>
    by_cases hs : d.success = true <;> simp [getCurrentUser, happ, hs]
  | thrown msg => simp [getCurrentUser, happ]

/-- Claim C8: when the stored session has an access token and the
authenticated request gets a 401, `apiRequest` calls `refreshToken()`
exactly once; if the refresh succeeds the original endpoint is fetched
exactly once more with the freshly stored token and that response's data
is returned, and if the refresh fails the error is surfaced without any
retry — and `getCurrentUser`, whose request this is, then clears the
stored `accessToken`, `refreshToken` and `currentUser` keys and reports no
user, i.e. logged out. -/
theorem auth_401_refresh_retry_spec (meServer : Option String → Resp)
    (refreshSrv : String → Option String) (st : Store) (tok : String)
    (htok : st.accessToken = some tok)
    (h401 : (meServer (some tok)).status = 401) :
    (apiRequest meServer refreshSrv st).refreshCalls = 1 ∧
    (getCurrentUser meServer refreshSrv st).refreshCalls = 1 ∧
    (∀ st2, refreshTokenOp refreshSrv st = (true, st2) →
      (apiRequest meServer refreshSrv st).endpointCalls = 2 ∧
      (apiRequest meServer refreshSrv st).outcome =
        ApiOutcome.ok (meServer st2.accessToken).data) ∧
    ((refreshTokenOp refreshSrv st).fst = false →
      (apiRequest meServer refreshSrv st).outcome =
        ApiOutcome.thrown (meServer (some tok)).data.message ∧
      (apiRequest meServer refreshSrv st).endpointCalls = 1 ∧
      (getCurrentUser meServer refreshSrv st).user = none ∧
      (getCurrentUser meServer refreshSrv st).store = clearSession st) := by
  have hre : apiRequest meServer refreshSrv st =
      if (refreshTokenOp refreshSrv st).fst then
        ⟨ApiOutcome.ok (meServer (refreshTokenOp refreshSrv st).snd.accessToken).data,
         (refreshTokenOp refreshSrv st).snd, 2, 1⟩
      else
        ⟨ApiOutcome.thrown (meServer (some tok)).data.message,
         (refreshTokenOp refreshSrv st).snd, 1, 1⟩ := by
    simp [apiRequest, htok, h401, respOk]
  have h1 : (apiRequest meServer refreshSrv st).refreshCalls = 1 := by
    rw [hre]
    by_cases hb : (refreshTokenOp refreshSrv st).fst <;> simp [hb]
  refine ⟨h1, ?_, ?_, ?_⟩
  · rw [getCurrentUser_refreshCalls]
    exact h1
  · intro st2 h2
    rw [hre, h2]
    simp
  · intro hb
    have hsnd := refreshTokenOp_snd_of_fail refreshSrv st hb
    have happ : apiRequest meServer refreshSrv st =
        ⟨ApiOutcome.thrown (meServer (some tok)).data.message, st, 1, 1⟩ := by
      rw [hre, hb, hsnd]
      simp
    refine ⟨by rw [happ], by rw [happ], ?_, ?_⟩
    · simp [getCurrentUser, happ]
    · simp [getCurrentUser, happ, logout]

/-- A backend for the C8 scenario: `/auth/me` answers 200 with the user
for the fresh token and 401 for anything else. -/
def meServerEx : Option String → Resp := fun t =>
  if t == some "fresh" then ⟨200, ⟨true, some "user-1", "ok"⟩⟩
  else ⟨401, ⟨false, none, "expired"⟩⟩

/-- A refresh endpoint that succeeds, issuing the fresh access token. -/
def refreshSrvOk : String → Option String := fun _ => some "fresh"

/-- A refresh endpoint that fails every refresh. -/
def refreshSrvBad : String → Option String := fun _ => none

/-- A stored session with a stale access token. -/
def stAuth : Store := ⟨some "stale", some "refresh-1", some "user-0"⟩

/-- Claim C8 witness: with a stale token, the 401 on `/auth/me` triggers
one refresh; when the refresh succeeds the call is retried once and
succeeds, and when the refresh fails `getCurrentUser` reports logged out
with all three session keys cleared. -/
theorem auth_401_refresh_retry_spec_witness :
    (apiRequest meServerEx refreshSrvOk stAuth).refreshCalls = 1 ∧
    (apiRequest meServerEx refreshSrvOk stAuth).endpointCalls = 2 ∧
    (apiRequest meServerEx refreshSrvOk stAuth).outcome =
      ApiOutcome.ok ⟨true, some "user-1", "ok"⟩ ∧
    (apiRequest meServerEx refreshSrvBad stAuth).refreshCalls = 1 ∧
    (getCurrentUser meServerEx refreshSrvBad stAuth).user = none ∧
    (getCurrentUser meServerEx refreshSrvBad stAuth).store = clearSession stAuth := by
  have hOk := auth_401_refresh_retry_spec meServerEx refreshSrvOk stAuth "stale" rfl
    (by simp [meServerEx, stAuth])
  have hBad := auth_401_refresh_retry_spec meServerEx refreshSrvBad stAuth "stale" rfl
    (by simp [meServerEx, stAuth])
  have h3 := hOk.2.2.1 ⟨some "fresh", some "refresh-1", some "user-0"⟩
    (by simp [refreshTokenOp, stAuth, refreshSrvOk])
  have h4 := hBad.2.2.2 (by simp [refreshTokenOp, stAuth, refreshSrvBad])
  refine ⟨hOk.1, h3.1, ?_, hBad.1, h4.2.2.1, h4.2.2.2⟩
  rw [h3.2]
  simp [meServerEx]

